import Mathlib

/-
Verification of the per-room streaming pipeline and session-registry of the
discord-radio-bot repository (src/main.go).

Modelling conventions:
- Go int16 samples are modelled as ℤ (the code clamps to [-32768, 32767]
  before the int16 conversion, so no wraparound arithmetic occurs).
- The Go float64 gain is modelled as ℚ.  Every claim settled below is
  insensitive to float64 rounding: the clamp in streamAudio (main.go:415-419)
  bounds the intermediate value whatever the rounding, and the concrete
  scenario of C8 (gain 50/100 = 0.5, sample 30000) uses only values and
  products that are exact in float64, where float64 and ℚ agree.
- Go's int16(sample) conversion truncates toward zero; ratTrunc below is
  truncation toward zero on ℚ.
- The decoder byte stream (ffmpeg stdout read through bufio + binary.Read,
  main.go:397-398) is modelled as a List Nat of bytes (each element a byte
  value < 256); binary.Read on a [frameSize*channels]int16 target follows
  io.ReadFull semantics: a full frame of bytes is consumed, io.EOF is
  returned only when zero bytes were available, and any other failure
  (including io.ErrUnexpectedEOF on a partial read) is a plain read error.
- The registry operations (main.go: playRadioStream 278-316, the "!stop"
  handler 130-145, the "!volume" handler 158-185) all perform their
  check-then-mutate sequence for the connections map under the single global
  mutex, so each command is modelled as one atomic transformation of the
  registry state.  Awaiting <-conn.done inside the lock is modelled by the
  stopped session reaching its post-teardown state (decoder killed and
  awaited, done closed) in the same atomic step, which is exactly what the
  blocking receive guarantees before the lock is released.
- The pipeline goroutine body (main.go:383-437) is modelled per-iteration
  (loopIter), and the interleaving of that goroutine with the outer
  streamAudio teardown (main.go:440-451 plus the deferred calls at 340, 341,
  377) is modelled as a small labelled transition system (GState/stepAct)
  whose atomic steps are the code's interaction points with shared state.
-/

namespace RadioBot

/-- main.go:26 -/
def channels : Nat := 2

/-- main.go:27 -/
def frameRate : Nat := 48000

/-- main.go:28 -/
def frameSize : Nat := 960

/-- main.go:29 -/
def maxBytes : Nat := (frameSize * 2) * 2

/-- Truncation toward zero on ℚ: the effect of Go's int16(sample) conversion
(main.go:420) on an in-range value.  For q < 0 truncation toward zero is
-⌊-q⌋. -/
def ratTrunc (q : ℚ) : ℤ := if 0 ≤ q then Int.floor q else -Int.floor (-q)

/-- The saturation in main.go:415-419: values above 32767 become 32767,
values below -32768 become -32768. -/
def clampQ (s : ℚ) : ℚ := if s > 32767 then 32767 else if s < -32768 then -32768 else s

/-- One sample of the volume-scaling step, main.go:414-420:
sample := float64(pcm[i]) * volume; clamp; pcm[i] = int16(sample). -/
def scaleSample (v : ℤ) (gain : ℚ) : ℤ := ratTrunc (clampQ ((v : ℚ) * gain))

/-- The whole per-frame scaling loop, main.go:413-421. -/
def scaleFrame (pcm : List ℤ) (gain : ℚ) : List ℤ := pcm.map (fun v => scaleSample v gain)

/-- conn.volume = float64(volumeValue) / 100.0, main.go:182. -/
def volumeOfPercent (v : ℕ) : ℚ := (v : ℚ) / 100

/-- Bytes per PCM frame: frameSize * channels int16 samples, two bytes each
(the binary.Read target in main.go:397 is a [frameSize*channels]int16). -/
def bytesPerFrame : Nat := frameSize * channels * 2

/-- Little-endian signed 16-bit interpretation of a two-byte value, as
binary.Read with binary.LittleEndian performs it (main.go:398). -/
def toInt16 (n : Nat) : ℤ := if n < 32768 then (n : ℤ) else (n : ℤ) - 65536

/-- Decode an interleaved little-endian int16 byte stream into samples
(binary.Read decoding, main.go:398).  Elements of the list are bytes. -/
def decodeSamples : List Nat → List ℤ
  | lo :: hi :: rest => toInt16 (lo + 256 * hi) :: decodeSamples rest
  | _ => []

/-- Outcome of one binary.Read of a full frame, main.go:397-407. -/
inductive ReadResult
  | frame (pcm : List ℤ) (rest : List Nat)
  | eofEnd
  | readFail
deriving DecidableEq

/-- One binary.Read into a [frameSize*channels]int16 buffer (main.go:397-398),
following io.ReadFull semantics over the remaining byte stream: a complete
frame is decoded when enough bytes remain; io.EOF ("Stream ended",
main.go:400-401) is produced only when zero bytes remain; any other shortfall
(io.ErrUnexpectedEOF on a partial read) lands in the generic error branch
("Error reading stream data", main.go:403). -/
def readFrame (input : List Nat) : ReadResult :=
  if bytesPerFrame ≤ input.length then
    ReadResult.frame (decodeSamples (input.take bytesPerFrame)) (input.drop bytesPerFrame)
  else if input.length = 0 then ReadResult.eofEnd
  else ReadResult.readFail

/-- Why the pipeline loop of main.go:383-437 ends. -/
inductive ExitCause
  | stopped
  | endOfStream
  | readFail
  | encodeFail
  | sinkNotReady
deriving DecidableEq

/-- Shared values the loop body reads during one iteration: the stop channel
(main.go:385), conn.paused (main.go:389-391), conn.volume (main.go:409-411),
whether opusEncoder.Encode succeeds (main.go:423), and whether the voice
connection is ready (main.go:430). -/
structure IterEnv where
  stopFired : Bool
  paused : Bool
  volume : ℚ
  encodeOk : Bool
  sinkReady : Bool

/-- State the loop itself owns: the remaining decoder byte stream and the
frames pushed to the transport sink so far (vc.OpusSend, main.go:435). -/
structure LoopState where
  input : List Nat
  pushed : List (List ℤ)
deriving DecidableEq

/-- Result of one loop iteration: keep running (with the number of time units
slept, 1 on the paused path per main.go:393) or exit with a cause. -/
inductive IterOut
  | running (st : LoopState) (slept : Nat)
  | exited (c : ExitCause)
deriving DecidableEq

/-- One iteration of the pipeline loop body, main.go:384-436, in source
order: select on conn.stop; poll conn.paused (sleep 1s and re-poll when
paused, reading nothing); binary.Read one frame; read conn.volume and scale
the frame; encode (failure is fatal); check vc.Ready/vc.OpusSend (not ready
is fatal); push the frame.  The pushed element is the scaled PCM frame (the
opus encoder is an external collaborator; its output is determined by the
scaled frame). -/
def loopIter (e : IterEnv) (st : LoopState) : IterOut :=
  if e.stopFired then IterOut.exited ExitCause.stopped
  else if e.paused then IterOut.running st 1
  else
    match readFrame st.input with
    | ReadResult.eofEnd => IterOut.exited ExitCause.endOfStream
    | ReadResult.readFail => IterOut.exited ExitCause.readFail
    | ReadResult.frame pcm rest =>
        if e.encodeOk then
          if e.sinkReady then
            IterOut.running { input := rest, pushed := st.pushed ++ [scaleFrame pcm e.volume] } 0
          else IterOut.exited ExitCause.sinkNotReady
        else IterOut.exited ExitCause.encodeFail

/-- Run the loop under a schedule of per-iteration environments. -/
def runLoop : List IterEnv → LoopState → LoopState × Option ExitCause
  | [], st => (st, none)
  | e :: es, st =>
      match loopIter e st with
      | IterOut.running st2 _ => runLoop es st2
      | IterOut.exited c => (st, some c)

/-- How the streamAudio startup (main.go:347-367) can end before the pipeline
loop is launched: ffmpeg.StdoutPipe failure (main.go:357-361), ffmpeg.Start
failure (main.go:363-367), or success (the goroutine at main.go:381 is then
launched). -/
inductive SetupOutcome
  | pipeFail
  | startFail
  | launched
deriving DecidableEq

/-- streamAudio startup, main.go:347-367: on either failure it logs and
returns (running the deferred close(conn.done)); only on success does the
pipeline goroutine start. -/
def streamAudioSetup (pipeOk startOk : Bool) : SetupOutcome :=
  if pipeOk = false then SetupOutcome.pipeFail
  else if startOk = false then SetupOutcome.startFail
  else SetupOutcome.launched

/-- The frames a streamAudio invocation pushes to the sink: none at all
unless setup reached the launched state. -/
def streamAudioPushes (pipeOk startOk : Bool) (envs : List IterEnv) (input : List Nat) :
    List (List ℤ) :=
  match streamAudioSetup pipeOk startOk with
  | SetupOutcome.launched => (runLoop envs { input := input, pushed := [] }).1.pushed
  | _ => []

/-- The Connection struct, main.go:37-46, restricted to its logical state:
streaming flag, volume, paused flag, whether the stop channel has been
closed, whether the done channel has been closed, and whether the ffmpeg
decoder process is still running. -/
structure SessionSt where
  streaming : Bool
  volume : ℚ
  paused : Bool
  stopClosed : Bool
  doneClosed : Bool
  decoderAlive : Bool
deriving DecidableEq

/-- The registry: the global connections map (main.go:49) keyed by guild id,
with sessions stored by a creation index so that a replaced session's final
state remains observable, and the next fresh index. -/
structure RegState where
  conns : String → Option Nat
  sessions : Nat → SessionSt
  nextId : Nat

/-- The Connection literal built in playRadioStream, main.go:303-309:
streaming true, volume 1.0, fresh stop/done channels; the paused field is
absent from the literal, so it is the Go zero value false; the decoder is
spawned by the streamAudio goroutine. -/
def newSession : SessionSt :=
  { streaming := true, volume := 1, paused := false,
    stopClosed := false, doneClosed := false, decoderAlive := true }

/-- A session value used as the default of the sessions table for indices
never registered; no claim depends on its contents. -/
def idleSession : SessionSt :=
  { streaming := false, volume := 1, paused := false,
    stopClosed := false, doneClosed := false, decoderAlive := false }

/-- The effect, on the stopped session, of close(conn.stop) followed by the
blocking <-conn.done (main.go:140-141 and 288-289): by the time done is
closed (deferred at main.go:340, last in LIFO order), the outer streamAudio
has killed and awaited the ffmpeg process (main.go:449-450), so after the
receive returns the decoder is gone and done has fired. -/
def stopSession (s : SessionSt) : SessionSt :=
  { s with stopClosed := true, doneClosed := true, decoderAlive := false }

/-- close(conn.stop); <-conn.done; delete(connections, room) — the teardown
block shared by the "!stop" handler (main.go:140-142) and playRadioStream's
replacement path (main.go:287-291), always executed under the global mutex. -/
def stopEntry (room : String) (st : RegState) : RegState :=
  match st.conns room with
  | none => st
  | some id =>
      { st with
        sessions := fun i => if i = id then stopSession (st.sessions i) else st.sessions i,
        conns := fun r => if r = room then none else st.conns r }

/-- Caller-visible outcome of playRadioStream: the early return when the user
is in no voice channel (main.go:280-283), the voice-join failure message
(main.go:294-299), or the "Now playing" success message (main.go:315). -/
inductive PlayOutcome
  | notInVoice
  | joinFailed
  | ok
deriving DecidableEq

/-- Outcome of the "!stop" handler: "Nothing is playing." or "Stopped
playing." (main.go:130-145). -/
inductive StopOutcome
  | nothingPlaying
  | ok
deriving DecidableEq

/-- Outcome of the "!volume" handler: rejected value, "Nothing is playing.",
or "Volume set" (main.go:158-185). -/
inductive VolumeOutcome
  | invalid
  | nothingPlaying
  | ok
deriving DecidableEq

/-- playRadioStream, main.go:278-316.  Outside the lock: the voice-channel
membership check (userInVoice).  Under the lock: if the room has a session,
close its stop channel, await its done channel and delete the entry
(main.go:287-291); then attempt the voice join (joinOk models
s.ChannelVoiceJoin succeeding) — on failure unlock and return with the old
session already torn down; on success register the fresh Connection and
unlock before the streamAudio goroutine starts. -/
def playRadioStream (room : String) (userInVoice joinOk : Bool) (st : RegState) :
    RegState × PlayOutcome :=
  if userInVoice = false then (st, PlayOutcome.notInVoice)
  else
    let st1 := stopEntry room st
    if joinOk = false then (st1, PlayOutcome.joinFailed)
    else
      ({ conns := fun r => if r = room then some st1.nextId else st1.conns r,
         sessions := fun i => if i = st1.nextId then newSession else st1.sessions i,
         nextId := st1.nextId + 1 },
       PlayOutcome.ok)

/-- The "!stop" handler, main.go:130-145: under the lock, if the room has no
connection or its streaming flag is false reply "Nothing is playing.";
otherwise close stop, await done and delete the entry. -/
def stopCmd (room : String) (st : RegState) : RegState × StopOutcome :=
  match st.conns room with
  | none => (st, StopOutcome.nothingPlaying)
  | some id =>
      if (st.sessions id).streaming then (stopEntry room st, StopOutcome.ok)
      else (st, StopOutcome.nothingPlaying)

/-- The "!volume" handler, main.go:158-185: values outside 0..100 are
rejected before the registry is consulted; then no connection or a false
streaming flag replies "Nothing is playing."; otherwise conn.volume is set
to float64(v)/100 under volumeMu. -/
def setVolumeCmd (room : String) (v : ℕ) (st : RegState) : RegState × VolumeOutcome :=
  if 100 < v then (st, VolumeOutcome.invalid)
  else
    match st.conns room with
    | none => (st, VolumeOutcome.nothingPlaying)
    | some id =>
        if (st.sessions id).streaming then
          ({ st with
             sessions := fun i =>
               if i = id then { st.sessions i with volume := volumeOfPercent v }
               else st.sessions i },
           VolumeOutcome.ok)
        else (st, VolumeOutcome.nothingPlaying)

/-- The pipeline terminating on its own (the errChan case of the select at
main.go:442-447, reached on end of stream, read error, encode error or sink
not ready): streamAudio kills and awaits ffmpeg (main.go:449-450), the
deferred calls run and close(conn.done) fires — but nothing touches the
connections map and nothing clears the streaming flag. -/
def pipelineEnd (room : String) (st : RegState) : RegState :=
  match st.conns room with
  | none => st
  | some id =>
      { st with
        sessions := fun i =>
          if i = id then { st.sessions i with doneClosed := true, decoderAlive := false }
          else st.sessions i }

/-- Registry with no connections. -/
def emptyReg : RegState := { conns := fun _ => none, sessions := fun _ => idleSession, nextId := 0 }

/-- Registry after one successful play for room "radio". -/
def demoPlaying : RegState := (playRadioStream "radio" true true emptyReg).1

/-- Registry whose entry for "radio" points at a session whose streaming flag
is false (exercising the dead !ok-or-not-streaming branch of the handlers). -/
def demoIdleConn : RegState :=
  { emptyReg with conns := fun r => if r = "radio" then some 0 else none }

/-- A concrete paused iteration environment. -/
def pausedEnv : IterEnv :=
  { stopFired := false, paused := true, volume := 1, encodeOk := true, sinkReady := true }

/-- A concrete loop state. -/
def loopSt0 : LoopState := { input := [], pushed := [] }

/-- Program counter of the pipeline goroutine (main.go:381-438): at the top
of the loop (the select on conn.stop), about to binary.Read, about to check
vc.Ready, about to send on vc.OpusSend, or returned. -/
inductive InnerPC
  | top
  | toRead
  | toCheckReady
  | toPush
  | finished
deriving DecidableEq

/-- Program counter of the outer streamAudio function after launching the
goroutine: blocked in the select at main.go:442-447; past the select; past
ffmpeg Kill+Wait (main.go:449-450); past the deferred vc.Speaking(false)
(main.go:377); past the deferred vc.Disconnect (main.go:341); returned after
the deferred close(conn.done) (main.go:340).  The defers run in LIFO order,
so close(conn.done) is the last action of streamAudio. -/
inductive OuterPC
  | selWait
  | afterSel
  | killed
  | spokeOff
  | disconnected
  | returned
deriving DecidableEq

/-- Shared state of one session's streamAudio invocation, its pipeline
goroutine, and the command path that closes conn.stop.  pushLog records, for
each send on vc.OpusSend, whether conn.done was already closed at the moment
of the send. -/
structure GState where
  stopClosed : Bool
  doneClosed : Bool
  errSent : Bool
  vcReady : Bool
  ffmpegAlive : Bool
  framesBuffered : Nat
  pausedFlag : Bool
  innerPC : InnerPC
  outerPC : OuterPC
  pushLog : List Bool
deriving DecidableEq

/-- Atomic steps of the interleaved execution.  Each step is one interaction
of a task with shared state, taken from the code:
- innerCheck: the goroutine's select on conn.stop plus the paused poll
  (main.go:384-395);
- innerRead: binary.Read of one frame (main.go:397-407) — it succeeds while
  decoded bytes remain buffered in the bufio.Reader or pipe (the buffer is
  not invalidated by killing ffmpeg), otherwise it sends on errChan and the
  goroutine returns;
- innerReady: the vc.Ready/vc.OpusSend check (main.go:430-434), after which
  the code is committed to the send;
- innerPush: the send on vc.OpusSend (main.go:435);
- cmdStop: close(conn.stop) by the "!stop" handler or a replacing play
  (main.go:140, 288);
- outerSel: the select at main.go:442-447 firing on conn.stop or errChan;
- outerKill: ffmpeg.Process.Kill(); ffmpeg.Wait() (main.go:449-450);
- outerSpeakOff / outerDisc / outerDone: the deferred vc.Speaking(false),
  conn.vc.Disconnect() and close(conn.done), in LIFO defer order. -/
inductive Act
  | innerCheck
  | innerRead
  | innerReady
  | innerPush
  | cmdStop
  | outerSel
  | outerKill
  | outerSpeakOff
  | outerDisc
  | outerDone
deriving DecidableEq

/-- Enabled-step semantics: some next state when the action is enabled in g,
none otherwise. -/
def stepAct (a : Act) (g : GState) : Option GState :=
  match a with
  | Act.innerCheck =>
      if g.innerPC = InnerPC.top then
        if g.stopClosed then some { g with innerPC := InnerPC.finished }
        else if g.pausedFlag then some g
        else some { g with innerPC := InnerPC.toRead }
      else none
  | Act.innerRead =>
      if g.innerPC = InnerPC.toRead then
        if 0 < g.framesBuffered then
          some { g with framesBuffered := g.framesBuffered - 1, innerPC := InnerPC.toCheckReady }
        else some { g with errSent := true, innerPC := InnerPC.finished }
      else none
  | Act.innerReady =>
      if g.innerPC = InnerPC.toCheckReady then
        if g.vcReady then some { g with innerPC := InnerPC.toPush }
        else some { g with errSent := true, innerPC := InnerPC.finished }
      else none
  | Act.innerPush =>
      if g.innerPC = InnerPC.toPush then
        some { g with pushLog := g.pushLog ++ [g.doneClosed], innerPC := InnerPC.top }
      else none
  | Act.cmdStop =>
      if g.stopClosed = false then some { g with stopClosed := true } else none
  | Act.outerSel =>
      if g.outerPC = OuterPC.selWait then
        if g.stopClosed || g.errSent then some { g with outerPC := OuterPC.afterSel } else none
      else none
  | Act.outerKill =>
      if g.outerPC = OuterPC.afterSel then
        some { g with ffmpegAlive := false, outerPC := OuterPC.killed }
      else none
  | Act.outerSpeakOff =>
      if g.outerPC = OuterPC.killed then some { g with outerPC := OuterPC.spokeOff } else none
  | Act.outerDisc =>
      if g.outerPC = OuterPC.spokeOff then
        some { g with vcReady := false, outerPC := OuterPC.disconnected }
      else none
  | Act.outerDone =>
      if g.outerPC = OuterPC.disconnected then
        some { g with doneClosed := true, outerPC := OuterPC.returned }
      else none

/-- Run a schedule of atomic steps; fails if any step is not enabled. -/
def execActs : List Act → GState → Option GState
  | [], g => some g
  | a :: as, g => (stepAct a g).bind (execActs as)

/-- Initial state of one streaming session: nothing stopped, session live,
one frame's worth of decoded bytes buffered, voice connection ready. -/
def c7Init : GState :=
  { stopClosed := false, doneClosed := false, errSent := false, vcReady := true,
    ffmpegAlive := true, framesBuffered := 1, pausedFlag := false,
    innerPC := InnerPC.top, outerPC := OuterPC.selWait, pushLog := [] }

/-- The interleaving that pushes a frame after doneSignal fires: the
goroutine passes its stop check, reads a frame and passes the vc.Ready check;
only then does a stop command close conn.stop; the outer streamAudio's select
fires, it kills and awaits ffmpeg, runs its defers and closes conn.done; the
goroutine then performs its pending send on vc.OpusSend. -/
def c7Sched : List Act :=
  [Act.innerCheck, Act.innerRead, Act.innerReady,
   Act.cmdStop, Act.outerSel, Act.outerKill,
   Act.outerSpeakOff, Act.outerDisc, Act.outerDone,
   Act.innerPush]

/-- Truncation toward zero never moves a value past an upper bound that is
at least 0. -/
theorem ratTrunc_le {q : ℚ} {b : ℤ} (hb : 0 ≤ b) (h : q ≤ (b : ℚ)) : ratTrunc q ≤ b := by
  unfold ratTrunc
  split
  · exact_mod_cast le_trans (Int.floor_le q) h
  · have h0 : (0 : ℚ) ≤ -q := by linarith [lt_of_not_le (by assumption : ¬ 0 ≤ q)]
    have : 0 ≤ Int.floor (-q) := Int.floor_nonneg.mpr h0
    omega

/-- Truncation toward zero never moves a value past a lower bound that is
at most 0. -/
theorem le_ratTrunc {q : ℚ} {a : ℤ} (ha : a ≤ 0) (h : (a : ℚ) ≤ q) : a ≤ ratTrunc q := by
  unfold ratTrunc
  split
  · have : 0 ≤ Int.floor q := Int.floor_nonneg.mpr (by assumption)
    omega
  · have hfloor : Int.floor (-q) ≤ -a := by
      have : -q ≤ ((-a : ℤ) : ℚ) := by push_cast; linarith
      exact_mod_cast le_trans (Int.floor_le (-q)) this
    omega

/-- The clamp's output never exceeds 32767. -/
theorem clampQ_le (s : ℚ) : clampQ s ≤ 32767 := by
  unfold clampQ
  split
  · norm_num
  · split
    · norm_num
    · exact le_of_not_lt (by assumption)

/-- The clamp's output is never below -32768. -/
theorem neg_le_clampQ (s : ℚ) : -32768 ≤ clampQ s := by
  unfold clampQ
  split
  · norm_num
  · split
    · norm_num
    · exact le_of_not_lt (by assumption)

/-- The clamp is the identity on values already inside the signed 16-bit
range. -/
theorem clampQ_eq_self {s : ℚ} (h1 : -32768 ≤ s) (h2 : s ≤ 32767) : clampQ s = s := by
  unfold clampQ
  rw [if_neg (by linarith), if_neg (by linarith)]

/-- C3: for every signed 16-bit sample value and every gain in [0, 1], the
volume scaling step (main.go:414-420) multiplies the sample by the gain and
saturates to [-32768, 32767] before truncation: the output equals the
truncation of the exact product (the saturation branches are not taken, so
nothing wraps), and it always lies within [-32768, 32767]. -/
theorem c3_scale_saturates (v : ℤ) (g : ℚ) (hv1 : -32768 ≤ v) (hv2 : v ≤ 32767)
    (hg1 : 0 ≤ g) (hg2 : g ≤ 1) :
    scaleSample v g = ratTrunc ((v : ℚ) * g) ∧
    -32768 ≤ scaleSample v g ∧ scaleSample v g ≤ 32767 := by
  have hv1q : (-32768 : ℚ) ≤ (v : ℚ) := by exact_mod_cast hv1
  have hv2q : (v : ℚ) ≤ 32767 := by exact_mod_cast hv2
  have hupper : (v : ℚ) * g ≤ 32767 := by
    have h1 : (v : ℚ) * g ≤ 32767 * g := mul_le_mul_of_nonneg_right hv2q hg1
    have h2 : (32767 : ℚ) * g ≤ 32767 := mul_le_of_le_one_right (by norm_num) hg2
    linarith
  have hlower : (-32768 : ℚ) ≤ (v : ℚ) * g := by
    have h1 : (-32768 : ℚ) * g ≤ (v : ℚ) * g := mul_le_mul_of_nonneg_right hv1q hg1
    have h2 : (32768 : ℚ) * g ≤ 32768 := mul_le_of_le_one_right (by norm_num) hg2
    nlinarith
  refine ⟨?_, ?_, ?_⟩
  · unfold scaleSample
    rw [clampQ_eq_self hlower hupper]
  · exact le_ratTrunc (by norm_num) (neg_le_clampQ _)
  · exact ratTrunc_le (by norm_num) (clampQ_le _)

/-- Witness for C3 at sample -20000 and gain 1. -/
theorem c3_scale_saturates_witness :
    ((-32768 : ℤ) ≤ -20000 ∧ (-20000 : ℤ) ≤ 32767 ∧ (0 : ℚ) ≤ 1 ∧ (1 : ℚ) ≤ 1) ∧
    (scaleSample (-20000) 1 = ratTrunc ((-20000 : ℤ) * (1 : ℚ)) ∧
      -32768 ≤ scaleSample (-20000) 1 ∧ scaleSample (-20000) 1 ≤ 32767) :=
  ⟨⟨by decide, by decide, by decide, by decide⟩,
    c3_scale_saturates (-20000) 1 (by decide) (by decide) (by decide) (by decide)⟩

/-- C8: with the session volume set by the "!volume 50" handler (50/100) and
an input frame whose frameSize*channels samples are all 30000, every output
sample of the scaling step is exactly 15000 — integer truncation after
scaling, the saturation branch not taken. -/
theorem c8_half_volume_frame :
    ((setVolumeCmd "radio" 50 demoPlaying).1.sessions 0).volume = volumeOfPercent 50 ∧
    (setVolumeCmd "radio" 50 demoPlaying).2 = VolumeOutcome.ok ∧
    scaleFrame (List.replicate (frameSize * channels) 30000) (volumeOfPercent 50)
      = List.replicate (frameSize * channels) 15000 := by
  refine ⟨rfl, rfl, ?_⟩
  unfold scaleFrame
  rw [List.map_replicate]
  have h : scaleSample 30000 (volumeOfPercent 50) = 15000 := by
    norm_num [scaleSample, volumeOfPercent, clampQ, ratTrunc]
  rw [h]

/-- binary.Read decodes two bytes per sample. -/
theorem decodeSamples_length : ∀ l : List Nat, (decodeSamples l).length = l.length / 2
  | [] => by simp [decodeSamples]
  | [_] => by simp [decodeSamples]
  | _ :: _ :: rest => by
      simp [decodeSamples, decodeSamples_length rest]
      omega

/-- C5 counterexample: the claim says a short read at stream end yields
EndOfStream, but on a nonempty remainder shorter than a frame (here two
stray bytes) binary.Read reports io.ErrUnexpectedEOF, which main.go:400-403
routes to the generic read-error branch, not the io.EOF "Stream ended"
branch. -/
theorem c5_short_read_counterexample :
    ¬ (∀ input : List Nat, input.length < bytesPerFrame →
        readFrame input = ReadResult.eofEnd) := by
  intro h
  have h2 := h [0, 0] (by decide)
  simp [readFrame, bytesPerFrame, frameSize, channels] at h2

/-- C5 amended: every read of the decoder byte stream either returns a
complete frame of exactly frameSize*channels samples (when at least a full
frame of bytes remains), or EndOfStream exactly when zero bytes remain, or
ReadError on any other failure — including a partial (nonempty but shorter
than a frame) remainder at stream end; a partial frame is never delivered
downstream. -/
theorem c5_read_classification (input : List Nat) :
    (bytesPerFrame ≤ input.length →
      readFrame input =
        ReadResult.frame (decodeSamples (input.take bytesPerFrame)) (input.drop bytesPerFrame)) ∧
    (input.length = 0 → readFrame input = ReadResult.eofEnd) ∧
    (0 < input.length → input.length < bytesPerFrame → readFrame input = ReadResult.readFail) ∧
    (∀ pcm rest, readFrame input = ReadResult.frame pcm rest →
      pcm.length = frameSize * channels ∧ rest = input.drop bytesPerFrame) := by
  have hb : bytesPerFrame = 3840 := rfl
  refine ⟨?_, ?_, ?_, ?_⟩
  · intro h
    unfold readFrame
    rw [if_pos h]
  · intro h
    unfold readFrame
    rw [if_neg (by omega), if_pos h]
  · intro h1 h2
    unfold readFrame
    rw [if_neg (by omega), if_neg (by omega)]
  · intro pcm rest h
    by_cases hge : bytesPerFrame ≤ input.length
    · unfold readFrame at h
      rw [if_pos hge] at h
      cases h
      refine ⟨?_, rfl⟩
      rw [decodeSamples_length, List.length_take, min_eq_left hge, hb]
      decide
    · unfold readFrame at h
      rw [if_neg hge] at h
      by_cases hz : input.length = 0
      · rw [if_pos hz] at h
        simp at h
      · rw [if_neg hz] at h
        simp at h

/-- Witness for C5 at three concrete streams: a full frame of zero bytes, an
empty stream, and a two-byte partial remainder. -/
theorem c5_read_classification_witness :
    readFrame (List.replicate bytesPerFrame 0) =
      ReadResult.frame (decodeSamples (List.replicate bytesPerFrame 0)) [] ∧
    readFrame [] = ReadResult.eofEnd ∧
    readFrame [0, 0] = ReadResult.readFail :=
  ⟨by
    have h := (c5_read_classification (List.replicate bytesPerFrame 0)).1 (by simp)
    simpa using h,
   (c5_read_classification []).2.1 rfl,
   (c5_read_classification [0, 0]).2.2.1 (by decide) (by decide)⟩

/-- C6: whenever the session's paused flag is true at the top of a pipeline
iteration (and stop has not fired), that iteration reads no frame and pushes
no frame — the loop state is returned unchanged — and it sleeps exactly one
time unit (time.Sleep(1 * time.Second), main.go:393); moreover the run
continues exactly as if the paused iteration had not happened, so once
paused is false again streaming resumes from the next available frame with
no frame duplicated. -/
theorem c6_pause_idles (e : IterEnv) (st : LoopState) (es : List IterEnv)
    (h1 : e.stopFired = false) (h2 : e.paused = true) :
    loopIter e st = IterOut.running st 1 ∧
    runLoop (e :: es) st = runLoop es st := by
  constructor
  · simp [loopIter, h1, h2]
  · simp [runLoop, loopIter, h1, h2]

/-- Witness for C6 at a concrete paused environment and empty continuation. -/
theorem c6_pause_idles_witness :
    pausedEnv.stopFired = false ∧ pausedEnv.paused = true ∧
    loopIter pausedEnv loopSt0 = IterOut.running loopSt0 1 ∧
    runLoop [pausedEnv] loopSt0 = runLoop [] loopSt0 :=
  ⟨rfl, rfl, (c6_pause_idles pausedEnv loopSt0 [] rfl rfl).1,
    (c6_pause_idles pausedEnv loopSt0 [] rfl rfl).2⟩

/-- C4 counterexample: the claim says a decoder start failure is reported to
the caller of play.  In the code ffmpeg is started by the streamAudio
goroutine only after playRadioStream has already registered the session,
unlocked, and sent "Now playing" (main.go:313-315); a start failure at
main.go:363-367 is merely logged.  Concretely: the decoder start fails
(streamAudioSetup true false = startFail) yet play's caller-visible outcome
is ok, refuting "the error is reported to the caller of play". -/
theorem c4_not_reported_counterexample :
    ¬ (∀ (st : RegState) (room : String),
        streamAudioSetup true false = SetupOutcome.startFail →
        (playRadioStream room true true st).2 ≠ PlayOutcome.ok) := by
  intro h
  exact h emptyReg "radio" rfl rfl

/-- C4 amended: when the decoder process fails to start, the pipeline loop is
never launched and no frame is ever pushed to the sink (the session never
streams); the failure itself is only logged — playRadioStream has already
reported success to its caller, for any registry state. -/
theorem c4_start_failure_never_streams (pipeOk : Bool) (envs : List IterEnv)
    (input : List Nat) (st : RegState) (room : String) :
    streamAudioSetup pipeOk false ≠ SetupOutcome.launched ∧
    streamAudioPushes pipeOk false envs input = [] ∧
    (playRadioStream room true true st).2 = PlayOutcome.ok := by
  refine ⟨?_, ?_, ?_⟩
  · cases pipeOk <;> simp [streamAudioSetup]
  · cases pipeOk <;> simp [streamAudioPushes, streamAudioSetup]
  · simp [playRadioStream]

/-- C7: the code can push a frame to the transport sink after doneSignal has
fired.  Under the schedule c7Sched — the pipeline goroutine passes its stop
check, reads a frame and passes the vc.Ready check; stop is then signalled;
the outer streamAudio's select fires, it kills and awaits ffmpeg, and its
deferred calls run, the last of which closes conn.done; the goroutine then
completes its pending send on vc.OpusSend — the resulting push log records a
send performed while doneClosed was already true.  Nothing in streamAudio
joins the goroutine before close(conn.done) runs, so this interleaving is
permitted by the code. -/
theorem c7_push_after_done :
    (execActs c7Sched c7Init).map GState.pushLog = some [true] ∧
    (execActs c7Sched c7Init).map GState.doneClosed = some true := by
  constructor
  · rfl
  · rfl

/-- Tearing down a room's entry does not consume session indices. -/
theorem stopEntry_nextId (room : String) (st : RegState) :
    (stopEntry room st).nextId = st.nextId := by
  unfold stopEntry
  cases h : st.conns room <;> rfl

/-- Tearing down a room with no entry changes nothing. -/
theorem stopEntry_of_none {room : String} {st : RegState} (h : st.conns room = none) :
    stopEntry room st = st := by
  unfold stopEntry
  rw [h]

/-- Tearing down a room with an entry removes the entry and leaves the
stopped session's final state in the sessions table. -/
theorem stopEntry_of_some {room : String} {st : RegState} {id : Nat}
    (h : st.conns room = some id) :
    (stopEntry room st).conns room = none ∧
    (stopEntry room st).sessions id = stopSession (st.sessions id) ∧
    (stopEntry room st).nextId = st.nextId := by
  unfold stopEntry
  rw [h]
  exact ⟨by simp, by simp, rfl⟩

/-- A play with the user in a voice channel and a successful voice join:
tear down any existing entry, then register the fresh session. -/
theorem play_unfold (room : String) (st : RegState) :
    playRadioStream room true true st =
      ({ conns := fun r => if r = room then some (stopEntry room st).nextId
                           else (stopEntry room st).conns r,
         sessions := fun i => if i = (stopEntry room st).nextId then newSession
                              else (stopEntry room st).sessions i,
         nextId := (stopEntry room st).nextId + 1 },
       PlayOutcome.ok) := by
  simp [playRadioStream]

/-- C1: two serialized play calls for the same room (the registry mutex
serializes the check-then-replace of main.go:285-311) leave exactly one
session registered — the second one; the first play's session has had its
stop channel closed and its done channel awaited (and its decoder killed)
before the second session was registered. -/
theorem c1_one_session_survives (st : RegState) (room : String) :
    (playRadioStream room true true st).2 = PlayOutcome.ok ∧
    (playRadioStream room true true st).1.conns room = some st.nextId ∧
    (playRadioStream room true true (playRadioStream room true true st).1).2 = PlayOutcome.ok ∧
    (playRadioStream room true true (playRadioStream room true true st).1).1.conns room
      = some (st.nextId + 1) ∧
    (playRadioStream room true true (playRadioStream room true true st).1).1.sessions st.nextId
      = stopSession newSession ∧
    (stopSession newSession).doneClosed = true ∧
    (stopSession newSession).stopClosed = true ∧
    (stopSession newSession).decoderAlive = false := by
  have hn1 : (stopEntry room st).nextId = st.nextId := stopEntry_nextId room st
  have hp1c : (playRadioStream room true true st).1.conns room = some st.nextId := by
    rw [play_unfold room st]
    simp [hn1]
  have hp1n : (playRadioStream room true true st).1.nextId = st.nextId + 1 := by
    rw [play_unfold room st]
    simp [hn1]
  have hp1s : (playRadioStream room true true st).1.sessions st.nextId = newSession := by
    rw [play_unfold room st]
    simp [hn1]
  have hstop := stopEntry_of_some hp1c
  have hn2 : (stopEntry room (playRadioStream room true true st).1).nextId = st.nextId + 1 := by
    rw [hstop.2.2, hp1n]
  refine ⟨by rw [play_unfold room st],
          hp1c,
          by rw [play_unfold room (playRadioStream room true true st).1],
          ?_, ?_, rfl, rfl, rfl⟩
  · rw [play_unfold room (playRadioStream room true true st).1]
    simp [hn2]
  · rw [play_unfold room (playRadioStream room true true st).1]
    have hne : ¬ st.nextId = (stopEntry room (playRadioStream room true true st).1).nextId := by
      rw [hn2]
      omega
    simp only [hne, if_neg, ite_false]
    rw [hstop.2.1, hp1s]

/-- C2: for a room with a streaming session, the "!stop" handler blocks on
<-conn.done, so when it returns the done channel has fired, the decoder has
been killed and awaited, and the registry entry is removed; a subsequent
play for that room then succeeds and registers a fresh session.  For a room
with no connection, or one whose streaming flag is false, the handler
replies "Nothing is playing.". -/
theorem c2_stop_then_replay (st : RegState) (room : String) :
    (∀ id, st.conns room = some id → (st.sessions id).streaming = true →
      (stopCmd room st).2 = StopOutcome.ok ∧
      (stopCmd room st).1.conns room = none ∧
      ((stopCmd room st).1.sessions id).doneClosed = true ∧
      ((stopCmd room st).1.sessions id).decoderAlive = false ∧
      ((stopCmd room st).1.sessions id).stopClosed = true ∧
      (playRadioStream room true true (stopCmd room st).1).2 = PlayOutcome.ok ∧
      (playRadioStream room true true (stopCmd room st).1).1.conns room = some st.nextId ∧
      (playRadioStream room true true (stopCmd room st).1).1.sessions st.nextId
        = newSession) ∧
    (st.conns room = none → (stopCmd room st).2 = StopOutcome.nothingPlaying) ∧
    (∀ id, st.conns room = some id → (st.sessions id).streaming = false →
      (stopCmd room st).2 = StopOutcome.nothingPlaying) := by
  refine ⟨?_, ?_, ?_⟩
  · intro id h hs
    have hcmd : stopCmd room st = (stopEntry room st, StopOutcome.ok) := by
      simp [stopCmd, h, hs]
    have hstop := stopEntry_of_some h
    have hplay := play_unfold room (stopEntry room st)
    have hsecond : stopEntry room (stopEntry room st) = stopEntry room st :=
      stopEntry_of_none hstop.1
    refine ⟨by rw [hcmd], by rw [hcmd]; exact hstop.1, ?_, ?_, ?_, ?_, ?_, ?_⟩
    · rw [hcmd]
      simp only []
      rw [hstop.2.1]
      rfl
    · rw [hcmd]
      simp only []
      rw [hstop.2.1]
      rfl
    · rw [hcmd]
      simp only []
      rw [hstop.2.1]
      rfl
    · rw [hcmd]
      simp only []
      rw [hplay]
    · rw [hcmd]
      simp only []
      rw [hplay]
      simp [hsecond, hstop.2.2]
    · rw [hcmd]
      simp only []
      rw [hplay]
      simp [hsecond, hstop.2.2]
  · intro h
    unfold stopCmd
    rw [h]
  · intro id h hs
    simp [stopCmd, h, hs]

/-- Witness for C2 at the registry after one play for "radio" (streaming
session present), the empty registry (no entry), and a registry whose entry
points at a non-streaming session. -/
theorem c2_stop_then_replay_witness :
    ((stopCmd "radio" demoPlaying).2 = StopOutcome.ok ∧
      (stopCmd "radio" demoPlaying).1.conns "radio" = none ∧
      ((stopCmd "radio" demoPlaying).1.sessions 0).doneClosed = true ∧
      ((stopCmd "radio" demoPlaying).1.sessions 0).decoderAlive = false ∧
      ((stopCmd "radio" demoPlaying).1.sessions 0).stopClosed = true ∧
      (playRadioStream "radio" true true (stopCmd "radio" demoPlaying).1).2 = PlayOutcome.ok ∧
      (playRadioStream "radio" true true (stopCmd "radio" demoPlaying).1).1.conns "radio"
        = some demoPlaying.nextId ∧
      (playRadioStream "radio" true true (stopCmd "radio" demoPlaying).1).1.sessions
        demoPlaying.nextId = newSession) ∧
    (stopCmd "radio" emptyReg).2 = StopOutcome.nothingPlaying ∧
    (stopCmd "radio" demoIdleConn).2 = StopOutcome.nothingPlaying :=
  ⟨(c2_stop_then_replay demoPlaying "radio").1 0 rfl rfl,
   (c2_stop_then_replay emptyReg "radio").2.1 rfl,
   (c2_stop_then_replay demoIdleConn "radio").2.2 0 rfl rfl⟩

/-- C9: when the pipeline terminates on its own (errChan path), the registry
entry survives and the streaming flag stays true, so a subsequent "!stop"
still takes the success path — closing the stop channel and removing the
entry — and a subsequent "!volume" still succeeds instead of replying
"Nothing is playing.". -/
theorem c9_self_end_keeps_entry (st : RegState) (room : String) (id : Nat) (v : ℕ)
    (h : st.conns room = some id) (hs : (st.sessions id).streaming = true) (hv : v ≤ 100) :
    (pipelineEnd room st).conns room = some id ∧
    ((pipelineEnd room st).sessions id).streaming = true ∧
    ((pipelineEnd room st).sessions id).doneClosed = true ∧
    ((pipelineEnd room st).sessions id).decoderAlive = false ∧
    (stopCmd room (pipelineEnd room st)).2 = StopOutcome.ok ∧
    (stopCmd room (pipelineEnd room st)).1.conns room = none ∧
    ((stopCmd room (pipelineEnd room st)).1.sessions id).stopClosed = true ∧
    (setVolumeCmd room v (pipelineEnd room st)).2 = VolumeOutcome.ok := by
  have hpe : pipelineEnd room st =
      { st with sessions := fun i =>
          if i = id then { st.sessions i with doneClosed := true, decoderAlive := false }
          else st.sessions i } := by
    unfold pipelineEnd
    rw [h]
  have hpec : (pipelineEnd room st).conns room = some id := by rw [hpe]; exact h
  have hpes : (pipelineEnd room st).sessions id =
      { st.sessions id with doneClosed := true, decoderAlive := false } := by
    rw [hpe]
    simp
  have hpestream : ((pipelineEnd room st).sessions id).streaming = true := by
    rw [hpes]
    exact hs
  have hstop := stopEntry_of_some hpec
  have hcmd : stopCmd room (pipelineEnd room st) =
      (stopEntry room (pipelineEnd room st), StopOutcome.ok) := by
    simp [stopCmd, hpec, hpestream]
  refine ⟨hpec, hpestream, by rw [hpes], by rw [hpes], by rw [hcmd], ?_, ?_, ?_⟩
  · rw [hcmd]
    exact hstop.1
  · rw [hcmd]
    simp only []
    rw [hstop.2.1]
    rfl
  · have hnv : ¬ 100 < v := by omega
    simp [setVolumeCmd, hnv, hpec, hpestream]

/-- Witness for C9 at the registry after one play for "radio", with volume
request 30. -/
theorem c9_self_end_keeps_entry_witness :
    (pipelineEnd "radio" demoPlaying).conns "radio" = some 0 ∧
    ((pipelineEnd "radio" demoPlaying).sessions 0).streaming = true ∧
    ((pipelineEnd "radio" demoPlaying).sessions 0).doneClosed = true ∧
    ((pipelineEnd "radio" demoPlaying).sessions 0).decoderAlive = false ∧
    (stopCmd "radio" (pipelineEnd "radio" demoPlaying)).2 = StopOutcome.ok ∧
    (stopCmd "radio" (pipelineEnd "radio" demoPlaying)).1.conns "radio" = none ∧
    ((stopCmd "radio" (pipelineEnd "radio" demoPlaying)).1.sessions 0).stopClosed = true ∧
    (setVolumeCmd "radio" 30 (pipelineEnd "radio" demoPlaying)).2 = VolumeOutcome.ok :=
  c9_self_end_keeps_entry demoPlaying "radio" 0 30 rfl rfl (by decide)

/-- C10: every session created by a successful play starts as the Connection
literal of main.go:303-309 — volume exactly 1.0 and paused false (the paused
field is absent from the literal, hence the Go zero value) — whatever the
volume or paused state of any session the registry previously held for the
room. -/
theorem c10_fresh_session_defaults (st : RegState) (room : String) :
    (playRadioStream room true true st).1.sessions st.nextId = newSession ∧
    (playRadioStream room true true st).1.conns room = some st.nextId ∧
    newSession.volume = 1 ∧ newSession.paused = false := by
  have hn1 : (stopEntry room st).nextId = st.nextId := stopEntry_nextId room st
  refine ⟨?_, ?_, rfl, rfl⟩
  · rw [play_unfold room st]
    simp [hn1]
  · rw [play_unfold room st]
    simp [hn1]

end RadioBot
